import Mathlib

/-!
Verification of the langchain SDK of the genai-toolbox repository: the
synchronous/asynchronous bridging layer (`_BackgroundLoop`, `ToolboxClient`,
`AsyncToolboxClient`) and the parameter-binding / authentication-token
composition protocol of the tool objects (`AsyncToolboxTool`).

The state found in the Python classes (class-level background loop, class-level
default HTTP session) is embedded as explicit state passing; exceptions are
embedded as `Except`; Python `warnings.warn` calls are embedded as lists of
warning strings returned alongside the result; an impure zero-argument token
getter is embedded as a function of the invocation tick (`Nat → String`), so
that "the getter is called afresh on every invoke" becomes "the header value at
tick `t` is the getter evaluated at `t`".
-/

namespace GenaiToolbox

/-- The JSON-like values carried in tool parameters and request bodies. -/
inductive JValue where
  | vstr (s : String)
  | vint (n : Int)
  | vbool (b : Bool)
deriving DecidableEq, Repr

/-- The declared type of a schema parameter (the subset of the schema's open
type enum that is exercised by this SDK's tests; `number` is a float type and
has no shallow embedding, and `array` plays no role in the properties below). -/
inductive ParamType where
  | tstring
  | tinteger
  | tboolean
deriving DecidableEq, Repr

/-- Does a concrete value satisfy a declared schema type? -/
def typeMatches : ParamType → JValue → Bool
  | .tstring, .vstr _ => true
  | .tinteger, .vint _ => true
  | .tboolean, .vbool _ => true
  | _, _ => false

/-- One entry of a tool schema's parameter list: `{name, type, description,
authSources}`.  A parameter with nonempty `authSources` is auth-gated. -/
structure ParameterSpec where
  name : String
  type : ParamType
  description : String
  authSources : List String
deriving DecidableEq, Repr

/-- A tool schema as delivered by the manifest: a description and an ordered
parameter list. -/
structure ToolSchema where
  description : String
  parameters : List ParameterSpec
deriving DecidableEq, Repr

/-- A bound parameter value: a literal, or a zero-argument value-producing
function (invoked at request-assembly time). -/
inductive BoundValue where
  | lit (v : JValue)
  | func (f : Unit → JValue)

/-- Resolve a bound parameter value: call it if it is a function, else use the
literal. -/
def resolveBound : BoundValue → JValue
  | .lit v => v
  | .func f => f ()

/-- An impure zero-argument ID-token getter, embedded as a function of the
invocation tick: `g t` is the value the getter returns when called during the
`t`-th invocation. -/
def AuthGetter : Type := Nat → String

/-- The exception classes raised by the SDK. -/
inductive ToolboxError where
  | valueError (msg : String)
  | permissionError (msg : String)
  | notImplementedError (msg : String)
  | runtimeError (msg : String)
  | validationError (msg : String)
deriving DecidableEq, Repr

/-- Join a list of names with a comma separator, as Python's
`", ".join(names)` does when formatting error messages. -/
def joinNames : List String → String
  | [] => ""
  | [n] => n
  | n :: rest => n ++ ", " ++ joinNames rest

/-- Modelled from the spec: the repository's `async_tools.py`
(`AsyncToolboxTool`) is not present under `src/`; its fields follow the spec's
data model: identity, schema, base URL, bound parameters, auth-token getters
(the HTTP session collaborator carries no state relevant to the claims and is
omitted). -/
structure AsyncToolboxTool where
  name : String
  schema : ToolSchema
  url : String
  boundParams : List (String × BoundValue)
  authTokens : List (String × AuthGetter)

/-- Does the schema declare a parameter of this name? -/
def AsyncToolboxTool.schemaHas (t : AsyncToolboxTool) (n : String) : Bool :=
  t.schema.parameters.any (fun p => p.name == n)

/-- Is the named parameter auth-gated by an auth source that has a registered
getter on this tool? -/
def AsyncToolboxTool.authGatedRegistered (t : AsyncToolboxTool) (n : String) : Bool :=
  t.schema.parameters.any (fun p =>
    p.name == n && p.authSources.any (fun s => (t.authTokens.lookup s).isSome))

/-- The auth-gated parameters of the tool that have no registered getter for
any of their auth sources. -/
def AsyncToolboxTool.unauthedParams (t : AsyncToolboxTool) : List String :=
  (t.schema.parameters.filter (fun p =>
    !p.authSources.isEmpty &&
      !p.authSources.any (fun s => (t.authTokens.lookup s).isSome))).map
    ParameterSpec.name

/-- The message of the `UnauthenticatedRequiredParameter` warning/error. -/
def authRequiredMsg (toolName : String) (params : List String) : String :=
  "Parameter(s) `" ++ joinNames params ++ "` of tool " ++ toolName ++
    " require authentication, but no valid authentication sources are registered. Please register the required sources before use."

/-- Modelled from the spec: `AsyncToolboxTool.__validate_auth` of the missing
`async_tools.py`.  If auth-gated parameters lack a registered getter: fatal
(permission error naming them) when `strict`, else a warning naming them. -/
def validateAuth (t : AsyncToolboxTool) (strict : Bool) :
    Except ToolboxError (List String) :=
  let ps := t.unauthedParams
  if ps.isEmpty then .ok []
  else if strict then .error (.permissionError (authRequiredMsg t.name ps))
  else .ok [authRequiredMsg t.name ps]

/-- The tool value assembled by the constructor before auth validation. -/
def rawTool (name : String) (schema : ToolSchema) (url : String)
    (toks : List (String × AuthGetter)) (bp : List (String × BoundValue)) :
    AsyncToolboxTool :=
  { name := name, schema := schema, url := url, boundParams := bp,
    authTokens := toks }

/-- Modelled from the spec: the constructor of the missing `AsyncToolboxTool`,
as invoked by the tool-loading factories: it stores name, schema, url, auth
getters and bound parameters, and eagerly runs `__validate_auth strict`
(failing fast when `strict`, else emitting the warning and deferring). -/
def AsyncToolboxTool.make (name : String) (schema : ToolSchema) (url : String)
    (authTokens : List (String × AuthGetter))
    (boundParams : List (String × BoundValue)) (strict : Bool) :
    Except ToolboxError (List String × AsyncToolboxTool) := do
  let ws ← validateAuth (rawTool name schema url authTokens boundParams) strict
  .ok (ws, rawTool name schema url authTokens boundParams)

/-- Modelled from the spec: `AsyncToolboxTool.bind_params` of the missing
`async_tools.py`.  Rebinding an already-bound name always fails regardless of
`strict`; binding a name missing from the schema or auth-gated by a registered
source is fatal when `strict`, else warned and skipped (only the valid subset
is bound); the receiver is never mutated — a fresh tool is returned. -/
def AsyncToolboxTool.bindParams (t : AsyncToolboxTool)
    (ps : List (String × BoundValue)) (strict : Bool) :
    Except ToolboxError (List String × AsyncToolboxTool) :=
  let dups := (ps.filter (fun nb => (t.boundParams.lookup nb.1).isSome)).map Prod.fst
  if !dups.isEmpty then
    .error (.valueError ("Parameter(s) `" ++ joinNames dups ++
      "` already bound in tool `" ++ t.name ++ "`."))
  else
    let missing := (ps.filter (fun nb => !t.schemaHas nb.1)).map Prod.fst
    let authed := (ps.filter (fun nb =>
      t.schemaHas nb.1 && t.authGatedRegistered nb.1)).map Prod.fst
    let msgs :=
      (if missing.isEmpty then [] else
        ["Parameter(s) " ++ joinNames missing ++ " missing and cannot be bound."]) ++
      (if authed.isEmpty then [] else
        ["Parameter(s) " ++ joinNames authed ++ " already authenticated and cannot be bound."])
    if strict && !msgs.isEmpty then
      .error (.valueError (joinNames msgs))
    else
      let valid := ps.filter (fun nb =>
        t.schemaHas nb.1 && !t.authGatedRegistered nb.1)
      .ok (msgs, { t with boundParams := t.boundParams ++ valid })

/-- Modelled from the spec: `AsyncToolboxTool.add_auth_tokens` of the missing
`async_tools.py`.  Registering an already-registered source always fails
regardless of `strict`; a previously-bound parameter that becomes auth-gated by
one of the new sources is likewise always fatal. -/
def AsyncToolboxTool.addAuthTokens (t : AsyncToolboxTool)
    (toks : List (String × AuthGetter)) (strict : Bool) :
    Except ToolboxError AsyncToolboxTool :=
  let dups := (toks.filter (fun sg => (t.authTokens.lookup sg.1).isSome)).map Prod.fst
  if !dups.isEmpty then
    .error (.valueError ("Authentication source(s) `" ++ joinNames dups ++
      "` already registered in tool `" ++ t.name ++ "`."))
  else
    let collisions := (t.boundParams.map Prod.fst).filter (fun n =>
      t.schema.parameters.any (fun p =>
        p.name == n && p.authSources.any (fun s => (toks.lookup s).isSome)))
    if !collisions.isEmpty then
      .error (.valueError ("Parameter(s) `" ++ joinNames collisions ++
        "` already bound in tool `" ++ t.name ++ "`, cannot also authenticate."))
    else
      let _ := strict
      .ok { t with authTokens := t.authTokens ++ toks }

/-- One HTTP POST request assembled by `ainvoke`: the invoke URL, the JSON
body of non-auth parameters, and the header mapping. -/
structure HttpRequest where
  url : String
  body : List (String × JValue)
  headers : List (String × String)
deriving DecidableEq, Repr

/-- Does the base URL use the insecure scheme? (`url.startswith("http://")`,
expressed on the character list so that it evaluates.) -/
def isInsecure (url : String) : Bool := List.isPrefixOf "http://".data url.data

/-- The warning the SDK raises before attaching a token over plain HTTP. -/
def insecureWarningMsg : String :=
  "Sending ID token over HTTP. User data may be exposed. Use HTTPS for secure communication."

/-- The first auth source of a parameter for which the tool holds a registered
getter, when one exists: resolution branch (a) applies exactly when this is
`some`. -/
def registeredSource (t : AsyncToolboxTool) (p : ParameterSpec) : Option String :=
  p.authSources.find? (fun s => (t.authTokens.lookup s).isSome)

/-- Modelled from the spec: the per-parameter resolution loop of the missing
`AsyncToolboxTool.__acall`/`ainvoke`: walk the schema parameters in order; (a)
an auth-gated parameter with a registered getter contributes a header
`<source>_token` whose value is the getter called afresh at this tick and is
omitted from the body; (b) else a bound parameter contributes its resolved
bound value to the body; (c) else the caller-supplied argument is required and
type-checked.  Violations are collected so that the validation error can name
every offending field. -/
def resolveParams (t : AsyncToolboxTool) (args : List (String × JValue))
    (tick : Nat) :
    List ParameterSpec →
      List (String × String) × List (String × JValue) × List String
  | [] => ([], [], [])
  | p :: rest =>
    let r := resolveParams t args tick rest
    match registeredSource t p with
    | some src =>
      match t.authTokens.lookup src with
      | some g => ((src ++ "_token", g tick) :: r.1, r.2.1, r.2.2)
      | none => r
    | none =>
      match t.boundParams.lookup p.name with
      | some bv => (r.1, (p.name, resolveBound bv) :: r.2.1, r.2.2)
      | none =>
        match args.lookup p.name with
        | some v =>
          if typeMatches p.type v then (r.1, (p.name, v) :: r.2.1, r.2.2)
          else (r.1, r.2.1, (p.name ++ ": value does not match type") :: r.2.2)
        | none => (r.1, r.2.1, (p.name ++ ": field required") :: r.2.2)

/-- Modelled from the spec: `AsyncToolboxTool.ainvoke` of the missing
`async_tools.py`, up to the HTTP POST boundary: resolve every schema parameter,
fail with a validation error naming every offending field if any resolution
failed, warn when a token is attached over the insecure scheme, and return the
assembled request together with the warnings emitted. -/
def AsyncToolboxTool.ainvoke (t : AsyncToolboxTool)
    (args : List (String × JValue)) (tick : Nat) :
    Except ToolboxError (List String × HttpRequest) :=
  let r := resolveParams t args tick t.schema.parameters
  if r.2.2.isEmpty then
    .ok (if isInsecure t.url && !r.1.isEmpty then [insecureWarningMsg] else [],
         { url := t.url ++ "/api/tool/" ++ t.name ++ "/invoke",
           body := r.2.1, headers := r.1 })
  else
    .error (.validationError ("validation errors for " ++ t.name ++ ": " ++
      joinNames r.2.2))

/-!
## The background event loop (`background_loop.py`)

`_BackgroundLoop` holds a nullable loop handle and thread handle.  A unit of
asynchronous work is embedded by its outcome (`Except`: result or exception);
`run_as_sync` blocking until the future completes is embedded as returning the
completed outcome.
-/

/-- The class `_BackgroundLoop`: the nullable running-loop handle and worker-thread
handle, identified by numeric ids. -/
structure BackgroundLoop where
  loop : Option Nat
  thread : Option Nat
deriving DecidableEq, Repr

/-- Embeds `_BackgroundLoop.run_as_sync`: raises when no loop is configured, else
submits the coroutine to the loop and blocks on its future, returning the
result or propagating the exception. -/
def BackgroundLoop.runAsSync {α : Type} (bl : BackgroundLoop)
    (coro : Except ToolboxError α) : Except ToolboxError α :=
  match bl.loop with
  | none => .error (.runtimeError
      "Cannot call synchronous methods before the background loop is initialized.")
  | some _ => coro

/-- Embeds `_BackgroundLoop.run_as_async`: with no loop configured the coroutine runs
in place on the caller's own scheduler; otherwise it is submitted to the
background loop and awaited — either way its outcome is the coroutine's own. -/
def BackgroundLoop.runAsAsync {α : Type} (bl : BackgroundLoop)
    (coro : Except ToolboxError α) : Except ToolboxError α :=
  match bl.loop with
  | none => coro
  | some _ => coro

/-!
## The clients (`async_client.py`, `client.py`)

Both classes keep class-level (process-wide) state: `AsyncToolboxClient`'s
default `ClientSession` and `ToolboxClient`'s `_BackgroundLoop`.  That state is
embedded as an explicit `ProcessState` threaded through the factory calls;
freshly created sessions and loop/thread pairs receive consecutive numeric ids,
so the id counters record how many were ever created.
-/

/-- The class-level state of the two client classes within one process. -/
structure ProcessState where
  bgLoop : Option BackgroundLoop
  nextLoopId : Nat
  defaultSession : Option Nat
  nextSessionId : Nat
deriving DecidableEq, Repr

/-- The state at process start: no background loop, no default session. -/
def initProcessState : ProcessState :=
  { bgLoop := none, nextLoopId := 0, defaultSession := none, nextSessionId := 0 }

/-- The observable fields of a constructed `AsyncToolboxClient`: its URL, the
id of the HTTP session it holds, and its optional background loop. -/
structure AsyncToolboxClient where
  url : String
  session : Nat
  bgLoop : Option BackgroundLoop
deriving DecidableEq, Repr

/-- Embeds `AsyncToolboxClient.create`: when no session is supplied, lazily create the
class-level default session on first use and share it; an explicit session is
used as-is and the default is left untouched. -/
def AsyncToolboxClient.create (st : ProcessState) (url : String)
    (session : Option Nat) (bgLoop : Option BackgroundLoop) :
    ProcessState × AsyncToolboxClient :=
  match session with
  | some s => (st, { url := url, session := s, bgLoop := bgLoop })
  | none =>
    match st.defaultSession with
    | some d => (st, { url := url, session := d, bgLoop := bgLoop })
    | none =>
      ({ st with defaultSession := some st.nextSessionId,
                 nextSessionId := st.nextSessionId + 1 },
       { url := url, session := st.nextSessionId, bgLoop := bgLoop })

/-- Embeds `ToolboxClient.__start_background_loop`, state part: if the class-level
`__bg_loop` is `None`, create a new event loop and a daemon thread running it
and store the pair; either way the class-level loop is the one used. -/
def startBackgroundLoop (st : ProcessState) : ProcessState × BackgroundLoop :=
  match st.bgLoop with
  | some bl => (st, bl)
  | none =>
    let bl : BackgroundLoop := { loop := some st.nextLoopId, thread := some st.nextLoopId }
    ({ st with bgLoop := some bl, nextLoopId := st.nextLoopId + 1 }, bl)

/-- The observable fields of a constructed `ToolboxClient`: the wrapped
`AsyncToolboxClient` (built with no explicit session, bound to the shared
loop). -/
structure ToolboxClient where
  asyncClient : AsyncToolboxClient
deriving DecidableEq, Repr

/-- Embeds `ToolboxClient.create`: ensure the process's background loop exists (the
first caller creates it), then construct the client, whose `__init__` builds an
`AsyncToolboxClient` with `session=None` bound to the class-level loop. -/
def ToolboxClient.create (st : ProcessState) (url : String) :
    ProcessState × ToolboxClient :=
  let (st1, bl) := startBackgroundLoop st
  let (st2, ac) := AsyncToolboxClient.create st1 url none (some bl)
  (st2, { asyncClient := ac })

/-- One `ToolboxClient.create` call folded into an accumulated state and
client list. -/
def toolboxCreateStep (acc : ProcessState × List ToolboxClient) (url : String) :
    ProcessState × List ToolboxClient :=
  ((ToolboxClient.create acc.1 url).1, acc.2 ++ [(ToolboxClient.create acc.1 url).2])

/-- A sequence of `ToolboxClient.create` calls from process start, returning
the final state and every constructed client. -/
def runToolboxCreates (urls : List String) : ProcessState × List ToolboxClient :=
  urls.foldl toolboxCreateStep (initProcessState, [])

/-- One `AsyncToolboxClient.create` call (a URL and an optional explicit
session) folded into an accumulated state and request/client list. -/
def asyncCreateStep
    (acc : ProcessState × List (Option Nat × AsyncToolboxClient))
    (req : String × Option Nat) :
    ProcessState × List (Option Nat × AsyncToolboxClient) :=
  ((AsyncToolboxClient.create acc.1 req.1 req.2 none).1,
   acc.2 ++ [(req.2, (AsyncToolboxClient.create acc.1 req.1 req.2 none).2)])

/-- A sequence of `AsyncToolboxClient.create` calls from process start (each
request a URL and an optional explicit session), returning the final state and
each request paired with its constructed client. -/
def runAsyncCreates (reqs : List (String × Option Nat)) :
    ProcessState × List (Option Nat × AsyncToolboxClient) :=
  reqs.foldl asyncCreateStep (initProcessState, [])

/-- The manifest returned by the service: a server version and an ordered
mapping from tool name to its schema. -/
structure ManifestSchema where
  serverVersion : String
  tools : List (String × ToolSchema)

/-- Python truthiness of the `Optional[dict]` argument `auth_headers`: `None`
and the empty dict are both falsy. -/
def headersTruthy {α : Type} : Option (List (String × α)) → Bool
  | none => false
  | some l => !l.isEmpty

/-- The deprecation warning emitted when both arguments are supplied. -/
def bothSuppliedMsg : String :=
  "Both `auth_tokens` and `auth_headers` are provided. `auth_headers` is deprecated, and `auth_tokens` will be used."

/-- The deprecation warning emitted when only `auth_headers` is supplied. -/
def deprecatedHeadersMsg : String :=
  "Argument `auth_headers` is deprecated. Use `auth_tokens` instead."

/-- The `auth_headers`/`auth_tokens` migration step shared verbatim by
`aload_tool` and `aload_toolset`: when `auth_headers` is truthy, warn — and, if
`auth_tokens` is empty, adopt `auth_headers` as the token mapping; otherwise
`auth_tokens` wins and `auth_headers` is discarded. -/
def mergeAuthHeaders (authTokens : List (String × AuthGetter))
    (authHeaders : Option (List (String × AuthGetter))) :
    List String × List (String × AuthGetter) :=
  match authHeaders with
  | none => ([], authTokens)
  | some hs =>
    if hs.isEmpty then ([], authTokens)
    else if !authTokens.isEmpty then ([bothSuppliedMsg], authTokens)
    else ([deprecatedHeadersMsg], hs)

/-- Embeds `AsyncToolboxClient.aload_tool`, with the manifest-fetch collaborator
replaced by the manifest it returns: run the `auth_headers` migration, look the
tool up in the manifest, and construct the `AsyncToolboxTool` with the
effective token mapping.  Warnings emitted before a failure are kept. -/
def aloadTool (manifest : ManifestSchema) (toolName : String) (url : String)
    (authTokens : List (String × AuthGetter))
    (authHeaders : Option (List (String × AuthGetter)))
    (boundParams : List (String × BoundValue)) (strict : Bool) :
    List String × Except ToolboxError AsyncToolboxTool :=
  let mw := mergeAuthHeaders authTokens authHeaders
  match manifest.tools.lookup toolName with
  | none => (mw.1, .error (.runtimeError ("tool not found in manifest: " ++ toolName)))
  | some schema =>
    match AsyncToolboxTool.make toolName schema url mw.2 boundParams strict with
    | .error e => (mw.1, .error e)
    | .ok (ws2, t) => (mw.1 ++ ws2, .ok t)

/-- The tool-construction loop of `aload_toolset`: one `AsyncToolboxTool` per
manifest entry, in manifest order, accumulating construction warnings. -/
def makeToolsetTools (url : String) (toks : List (String × AuthGetter))
    (boundParams : List (String × BoundValue)) (strict : Bool) :
    List (String × ToolSchema) →
      Except ToolboxError (List String × List AsyncToolboxTool)
  | [] => .ok ([], [])
  | (n, schema) :: rest => do
    let (ws, t) ← AsyncToolboxTool.make n schema url toks boundParams strict
    let (wsRest, ts) ← makeToolsetTools url toks boundParams strict rest
    .ok (ws ++ wsRest, t :: ts)

/-- Embeds `AsyncToolboxClient.aload_toolset`, with the manifest-fetch collaborator
replaced by the manifest it returns: run the `auth_headers` migration, then
construct one tool per manifest entry with the effective token mapping. -/
def aloadToolset (manifest : ManifestSchema) (url : String)
    (authTokens : List (String × AuthGetter))
    (authHeaders : Option (List (String × AuthGetter)))
    (boundParams : List (String × BoundValue)) (strict : Bool) :
    List String × Except ToolboxError (List AsyncToolboxTool) :=
  let mw := mergeAuthHeaders authTokens authHeaders
  match makeToolsetTools url mw.2 boundParams strict manifest.tools with
  | .error e => (mw.1, .error e)
  | .ok (ws2, ts) => (mw.1 ++ ws2, .ok ts)

/-- Embeds `AsyncToolboxClient.load_tool`: unconditionally raises
`NotImplementedError` directing the caller to the synchronous client. -/
def AsyncToolboxClient.load_tool (_client : AsyncToolboxClient)
    (_toolName : String) (_authTokens : List (String × AuthGetter))
    (_authHeaders : Option (List (String × AuthGetter)))
    (_boundParams : List (String × BoundValue)) (_strict : Bool) :
    Except ToolboxError AsyncToolboxTool :=
  .error (.notImplementedError
    "You can use the ToolboxClient to call synchronous methods.")

/-- Embeds `AsyncToolboxClient.load_toolset`: unconditionally raises
`NotImplementedError` directing the caller to the synchronous client. -/
def AsyncToolboxClient.load_toolset (_client : AsyncToolboxClient)
    (_toolsetName : Option String) (_authTokens : List (String × AuthGetter))
    (_authHeaders : Option (List (String × AuthGetter)))
    (_boundParams : List (String × BoundValue)) (_strict : Bool) :
    Except ToolboxError (List AsyncToolboxTool) :=
  .error (.notImplementedError
    "You can use the ToolboxClient to call synchronous methods.")

/-!
## Concrete fixtures (the schemas of the repository's test suite)
-/

/-- The two-parameter schema without auth used throughout the tests. -/
def toolSchemaFix : ToolSchema :=
  { description := "Test Tool Description",
    parameters :=
      [ { name := "param1", type := .tstring, description := "Param 1",
          authSources := [] },
        { name := "param2", type := .tinteger, description := "Param 2",
          authSources := [] } ] }

/-- The schema whose first parameter is auth-gated by `test-auth-source`. -/
def authToolSchemaFix : ToolSchema :=
  { description := "Test Tool Description",
    parameters :=
      [ { name := "param1", type := .tstring, description := "Param 1",
          authSources := ["test-auth-source"] },
        { name := "param2", type := .tinteger, description := "Param 2",
          authSources := [] } ] }

/-- A rotating token getter: a different value on the first and later calls. -/
def rotatingGetter : AuthGetter := fun tick => if tick == 0 then "tok0" else "tok1"

/-- The auth-gated tool with a registered rotating getter over HTTPS. -/
def authToolFix : AsyncToolboxTool :=
  { name := "test_tool", schema := authToolSchemaFix, url := "https://test-url",
    boundParams := [], authTokens := [("test-auth-source", rotatingGetter)] }

/-!
## Theorems
-/

/-- C3: for every tool and both values of `strict`, rebinding an
already-bound parameter name fails with an error naming that parameter, and
re-registering an already-registered auth source fails with an error naming
that source; neither conflict is downgraded to a warning by `strict = false`. -/
theorem bind_and_auth_conflicts_always_fatal
    (t : AsyncToolboxTool) (strict : Bool) (n : String) (bv : BoundValue)
    (src : String) (g : AuthGetter)
    (hb : (t.boundParams.lookup n).isSome = true)
    (ha : (t.authTokens.lookup src).isSome = true) :
    t.bindParams [(n, bv)] strict =
      .error (.valueError ("Parameter(s) `" ++ n ++ "` already bound in tool `" ++
        t.name ++ "`.")) ∧
    t.addAuthTokens [(src, g)] strict =
      .error (.valueError ("Authentication source(s) `" ++ src ++
        "` already registered in tool `" ++ t.name ++ "`.")) := by
  constructor
  · unfold AsyncToolboxTool.bindParams
    simp [hb, joinNames]
  · unfold AsyncToolboxTool.addAuthTokens
    simp [ha, joinNames]

/-- Witness for C3 at a concrete tool: `param1` already bound and
`test-auth-source` already registered. -/
theorem bind_and_auth_conflicts_always_fatal_witness :
    ({ name := "test_tool", schema := toolSchemaFix, url := "https://test-url",
       boundParams := [("param1", .lit (.vstr "x"))],
       authTokens := [("test-auth-source", rotatingGetter)] } :
        AsyncToolboxTool).bindParams [("param1", .lit (.vstr "y"))] false =
      .error (.valueError
        "Parameter(s) `param1` already bound in tool `test_tool`.") ∧
    ({ name := "test_tool", schema := toolSchemaFix, url := "https://test-url",
       boundParams := [("param1", .lit (.vstr "x"))],
       authTokens := [("test-auth-source", rotatingGetter)] } :
        AsyncToolboxTool).addAuthTokens
        [("test-auth-source", rotatingGetter)] false =
      .error (.valueError
        "Authentication source(s) `test-auth-source` already registered in tool `test_tool`.") :=
  bind_and_auth_conflicts_always_fatal _ false "param1" (.lit (.vstr "y"))
    "test-auth-source" rotatingGetter (by rfl) (by rfl)

/-- C7: `run_as_sync` with no loop handle raises the uninitialized-loop error;
with a loop present it drives the submitted work to completion, returning its
result or propagating its exception. -/
theorem runAsSync_uninitialized_or_completes {α : Type}
    (bl : BackgroundLoop) (coro : Except ToolboxError α) :
    (bl.loop = none → bl.runAsSync coro = .error (.runtimeError
      "Cannot call synchronous methods before the background loop is initialized.")) ∧
    (∀ l, bl.loop = some l → bl.runAsSync coro = coro) := by
  constructor
  · intro h
    unfold BackgroundLoop.runAsSync
    rw [h]
  · intro l h
    unfold BackgroundLoop.runAsSync
    rw [h]

/-- Witness for C7: the uninitialized loop rejects, the initialized loop
returns the result and propagates the failure. -/
theorem runAsSync_uninitialized_or_completes_witness :
    BackgroundLoop.runAsSync (α := Nat) { loop := none, thread := none } (.ok 5) =
      .error (.runtimeError
        "Cannot call synchronous methods before the background loop is initialized.") ∧
    BackgroundLoop.runAsSync (α := Nat) { loop := some 0, thread := some 0 } (.ok 5) =
      .ok 5 ∧
    BackgroundLoop.runAsSync (α := Nat) { loop := some 0, thread := some 0 }
        (.error (.valueError "boom")) = .error (.valueError "boom") :=
  ⟨(runAsSync_uninitialized_or_completes _ _).1 rfl,
   (runAsSync_uninitialized_or_completes _ _).2 0 rfl,
   (runAsSync_uninitialized_or_completes _ _).2 0 rfl⟩

/-- C9: `load_tool` and `load_toolset` on the async client always raise the
`NotImplementedError` directing the caller to the synchronous client, for every
combination of arguments. -/
theorem async_client_sync_loads_not_implemented :
    ∀ (c : AsyncToolboxClient) (toolName : String) (toolsetName : Option String)
      (tk1 tk2 : List (String × AuthGetter))
      (hd1 hd2 : Option (List (String × AuthGetter)))
      (bp1 bp2 : List (String × BoundValue)) (s1 s2 : Bool),
      c.load_tool toolName tk1 hd1 bp1 s1 =
        .error (.notImplementedError
          "You can use the ToolboxClient to call synchronous methods.") ∧
      c.load_toolset toolsetName tk2 hd2 bp2 s2 =
        .error (.notImplementedError
          "You can use the ToolboxClient to call synchronous methods.") := by
  intro c toolName toolsetName tk1 tk2 hd1 hd2 bp1 bp2 s1 s2
  exact ⟨rfl, rfl⟩

/-- A tool over the plain two-parameter schema (`param1:string`,
`param2:integer`, no auth), with nothing bound and no getters registered. -/
def simpleTool (name url d0 d1 d2 : String) : AsyncToolboxTool :=
  { name := name,
    schema :=
      { description := d0,
        parameters :=
          [ { name := "param1", type := .tstring, description := d1,
              authSources := [] },
            { name := "param2", type := .tinteger, description := d2,
              authSources := [] } ] },
    url := url, boundParams := [], authTokens := [] }

/-- C2: on the no-auth `param1:string`/`param2:integer` schema, binding
`param1` (literal or zero-argument function) and invoking with `{param2: 5}`
sends one body merging the resolved bound value with the caller-supplied
argument, in schema order, with no auth headers and no warnings. -/
theorem bind_then_invoke_merges_body
    (name url d0 d1 d2 : String) (bv : BoundValue) (strict : Bool) (tick : Nat) :
    (simpleTool name url d0 d1 d2).bindParams [("param1", bv)] strict =
      .ok ([], { (simpleTool name url d0 d1 d2) with
                   boundParams := [("param1", bv)] }) ∧
    ({ (simpleTool name url d0 d1 d2) with
         boundParams := [("param1", bv)] } : AsyncToolboxTool).ainvoke
        [("param2", .vint 5)] tick =
      .ok ([], { url := url ++ "/api/tool/" ++ name ++ "/invoke",
                 body := [("param1", resolveBound bv), ("param2", .vint 5)],
                 headers := [] }) := by
  constructor
  · unfold AsyncToolboxTool.bindParams
    simp [simpleTool, AsyncToolboxTool.schemaHas, AsyncToolboxTool.authGatedRegistered]
  · unfold AsyncToolboxTool.ainvoke
    simp [simpleTool, resolveParams, registeredSource, typeMatches, isInsecure,
      List.lookup]

/-- Witness for C2 at the test fixture's concrete values. -/
theorem bind_then_invoke_merges_body_witness :
    (simpleTool "test_tool" "http://test_url" "Test Tool Description" "Param 1"
        "Param 2").bindParams [("param1", .lit (.vstr "x"))] true =
      .ok ([], { (simpleTool "test_tool" "http://test_url" "Test Tool Description"
                   "Param 1" "Param 2") with
                   boundParams := [("param1", .lit (.vstr "x"))] }) ∧
    ({ (simpleTool "test_tool" "http://test_url" "Test Tool Description" "Param 1"
         "Param 2") with
         boundParams := [("param1", .lit (.vstr "x"))] } :
        AsyncToolboxTool).ainvoke [("param2", .vint 5)] 0 =
      .ok ([], { url := "http://test_url" ++ "/api/tool/" ++ "test_tool" ++ "/invoke",
                 body := [("param1", resolveBound (.lit (.vstr "x"))),
                          ("param2", .vint 5)],
                 headers := [] }) :=
  bind_then_invoke_merges_body "test_tool" "http://test_url"
    "Test Tool Description" "Param 1" "Param 2" (.lit (.vstr "x")) true 0

/-- A tool constructed by the factory holds exactly the auth-token mapping the
factory passed it. -/
theorem make_ok_authTokens {n : String} {schema : ToolSchema} {url : String}
    {toks : List (String × AuthGetter)} {bp : List (String × BoundValue)}
    {strict : Bool} {ws : List String} {t : AsyncToolboxTool}
    (h : AsyncToolboxTool.make n schema url toks bp strict = .ok (ws, t)) :
    t.authTokens = toks := by
  unfold AsyncToolboxTool.make at h
  simp only [bind, Except.bind] at h
  split at h
  · exact absurd h (by simp)
  · simp only [Except.ok.injEq, Prod.mk.injEq] at h
    rw [← h.2]
    rfl

/-- Every tool constructed by the toolset loop holds exactly the auth-token
mapping the loop passed it. -/
theorem makeToolsetTools_ok_authTokens {url : String}
    {toks : List (String × AuthGetter)} {bp : List (String × BoundValue)}
    {strict : Bool} :
    ∀ (entries : List (String × ToolSchema)) {ws : List String}
      {ts : List AsyncToolboxTool},
      makeToolsetTools url toks bp strict entries = .ok (ws, ts) →
      ∀ t ∈ ts, t.authTokens = toks := by
  intro entries
  induction entries with
  | nil =>
    intro ws ts h t ht
    simp only [makeToolsetTools, Except.ok.injEq, Prod.mk.injEq] at h
    rw [← h.2] at ht
    exact absurd ht (by simp)
  | cons e rest ih =>
    intro ws ts h t ht
    simp only [makeToolsetTools, bind, Except.bind] at h
    split at h
    · exact absurd h (by simp)
    · rename_i w1 hmk
      obtain ⟨w0, t0⟩ := w1
      split at h
      · exact absurd h (by simp)
      · rename_i w2 hrest
        obtain ⟨wr, tr⟩ := w2
        simp only [Except.ok.injEq, Prod.mk.injEq] at h
        rw [← h.2] at ht
        rcases List.mem_cons.mp ht with hh | hh
        · rw [hh]; exact make_ok_authTokens hmk
        · exact ih hrest t hh

/-- When the `auth_headers` migration produces warning `m` and effective token
mapping `eff`, both loaders emit `m` first and build every tool with `eff`. -/
theorem aload_effective_tokens (manifest : ManifestSchema) (toolName url : String)
    (toks : List (String × AuthGetter))
    (hdrs : Option (List (String × AuthGetter)))
    (bp : List (String × BoundValue)) (strict : Bool)
    (m : String) (eff : List (String × AuthGetter))
    (hm : mergeAuthHeaders toks hdrs = ([m], eff)) :
    (aloadTool manifest toolName url toks hdrs bp strict).1.head? = some m ∧
    (∀ t, (aloadTool manifest toolName url toks hdrs bp strict).2 = .ok t →
      t.authTokens = eff) ∧
    (aloadToolset manifest url toks hdrs bp strict).1.head? = some m ∧
    (∀ ts, (aloadToolset manifest url toks hdrs bp strict).2 = .ok ts →
      ∀ t ∈ ts, t.authTokens = eff) := by
  refine ⟨?_, ?_, ?_, ?_⟩
  · unfold aloadTool
    rw [hm]
    dsimp only
    split
    · rfl
    · split
      · rfl
      · rfl
  · intro t ht
    unfold aloadTool at ht
    rw [hm] at ht
    dsimp only at ht
    split at ht
    · exact absurd ht (by simp)
    · rename_i schema hlk
      split at ht
      · exact absurd ht (by simp)
      · rename_i w hmk
        obtain ⟨w2, t2⟩ := w
        simp only [Except.ok.injEq] at ht
        rw [← ht]
        exact make_ok_authTokens hmk
  · unfold aloadToolset
    rw [hm]
    dsimp only
    split
    · rfl
    · rfl
  · intro ts hts t ht
    unfold aloadToolset at hts
    rw [hm] at hts
    dsimp only at hts
    split at hts
    · exact absurd hts (by simp)
    · simp only at hts
      injection hts with hts2
      subst hts2
      exact makeToolsetTools_ok_authTokens _ (by assumption) t ht

/-- C6: supplying a truthy deprecated `auth_headers` to `aload_tool` or
`aload_toolset` emits the migration warning and uses `auth_headers` as the
token mapping when `auth_tokens` is empty; when both are supplied the
precedence warning is emitted and `auth_tokens` wins, `auth_headers` being
discarded. -/
theorem aload_auth_headers_migration
    (manifest : ManifestSchema) (toolName url : String)
    (toks hs : List (String × AuthGetter)) (bp : List (String × BoundValue))
    (strict : Bool) (hne : hs.isEmpty = false) :
    (toks = [] →
      (aloadTool manifest toolName url toks (some hs) bp strict).1.head? =
        some deprecatedHeadersMsg ∧
      (∀ t, (aloadTool manifest toolName url toks (some hs) bp strict).2 = .ok t →
        t.authTokens = hs) ∧
      (aloadToolset manifest url toks (some hs) bp strict).1.head? =
        some deprecatedHeadersMsg ∧
      (∀ ts, (aloadToolset manifest url toks (some hs) bp strict).2 = .ok ts →
        ∀ t ∈ ts, t.authTokens = hs)) ∧
    (toks.isEmpty = false →
      (aloadTool manifest toolName url toks (some hs) bp strict).1.head? =
        some bothSuppliedMsg ∧
      (∀ t, (aloadTool manifest toolName url toks (some hs) bp strict).2 = .ok t →
        t.authTokens = toks) ∧
      (aloadToolset manifest url toks (some hs) bp strict).1.head? =
        some bothSuppliedMsg ∧
      (∀ ts, (aloadToolset manifest url toks (some hs) bp strict).2 = .ok ts →
        ∀ t ∈ ts, t.authTokens = toks)) := by
  constructor
  · intro htoks
    subst htoks
    exact aload_effective_tokens manifest toolName url [] (some hs) bp strict
      deprecatedHeadersMsg hs (by simp [mergeAuthHeaders, hne])
  · intro htoks
    exact aload_effective_tokens manifest toolName url toks (some hs) bp strict
      bothSuppliedMsg toks (by simp [mergeAuthHeaders, hne, htoks])

/-- The manifest of the async-client tests, restricted to its first tool. -/
def manifestFix : ManifestSchema :=
  { serverVersion := "1.0.0",
    tools :=
      [ ("test_tool_1",
         { description := "Test Tool 1 Description",
           parameters :=
             [ { name := "param1", type := .tstring, description := "Param 1",
                 authSources := [] } ] }) ] }

/-- A constant getter standing in for the deprecated header producer. -/
def bearerGetter : AuthGetter := fun _ => "Bearer token"

/-- A constant getter standing in for the `auth_tokens` producer. -/
def testGetter : AuthGetter := fun _ => "token"

/-- Witness for C6: the deprecated-headers branch and the both-supplied branch
at the test fixture's arguments, for tool and toolset loading. -/
theorem aload_auth_headers_migration_witness :
    (aloadTool manifestFix "test_tool_1" "http://test_url" []
        (some [("Authorization", bearerGetter)]) [] true).1.head? =
      some deprecatedHeadersMsg ∧
    (aloadToolset manifestFix "http://test_url" []
        (some [("Authorization", bearerGetter)]) [] true).1.head? =
      some deprecatedHeadersMsg ∧
    (aloadTool manifestFix "test_tool_1" "http://test_url" [("test", testGetter)]
        (some [("Authorization", bearerGetter)]) [] true).1.head? =
      some bothSuppliedMsg ∧
    (aloadToolset manifestFix "http://test_url" [("test", testGetter)]
        (some [("Authorization", bearerGetter)]) [] true).1.head? =
      some bothSuppliedMsg :=
  have h1 := (aload_auth_headers_migration manifestFix "test_tool_1"
    "http://test_url" [] [("Authorization", bearerGetter)] [] true rfl).1 rfl
  have h2 := (aload_auth_headers_migration manifestFix "test_tool_1"
    "http://test_url" [("test", testGetter)] [("Authorization", bearerGetter)]
    [] true rfl).2 rfl
  ⟨h1.1, h1.2.2.1, h2.1, h2.2.2.1⟩

/-- The invariant of the background-loop singleton state: at most one
loop/thread pair was ever created, and if one exists it is pair 0. -/
def loopInv (st : ProcessState) : Prop :=
  st.nextLoopId ≤ 1 ∧ (st.bgLoop = none → st.nextLoopId = 0) ∧
    ∀ bl, st.bgLoop = some bl → bl = { loop := some 0, thread := some 0 }

/-- One `ToolboxClient.create` call preserves the singleton invariant and
hands the constructed client the single shared loop. -/
theorem create_preserves_loopInv (st : ProcessState) (url : String)
    (h : loopInv st) :
    loopInv (ToolboxClient.create st url).1 ∧
      (ToolboxClient.create st url).2.asyncClient.bgLoop =
        some { loop := some 0, thread := some 0 } := by
  obtain ⟨bgl, nid, ds, nsid⟩ := st
  obtain ⟨h1, h2, h3⟩ := h
  cases bgl with
  | none =>
    have hz : nid = 0 := h2 rfl
    subst hz
    cases ds <;>
      simp [ToolboxClient.create, startBackgroundLoop, AsyncToolboxClient.create,
        loopInv]
  | some bl =>
    have hbl : bl = { loop := some 0, thread := some 0 } := h3 bl rfl
    subst hbl
    cases ds <;>
      simp [ToolboxClient.create, startBackgroundLoop, AsyncToolboxClient.create,
        loopInv] <;>
      exact h1

/-- The fold of `ToolboxClient.create` calls preserves the singleton invariant
and keeps every accumulated client on the single shared loop. -/
theorem foldl_toolboxCreateStep_inv :
    ∀ (urls : List String) (st : ProcessState) (cs : List ToolboxClient),
      loopInv st →
      (∀ c ∈ cs, c.asyncClient.bgLoop = some { loop := some 0, thread := some 0 }) →
      loopInv (urls.foldl toolboxCreateStep (st, cs)).1 ∧
      ∀ c ∈ (urls.foldl toolboxCreateStep (st, cs)).2,
        c.asyncClient.bgLoop = some { loop := some 0, thread := some 0 } := by
  intro urls
  induction urls with
  | nil =>
    intro st cs h1 h2
    exact ⟨h1, h2⟩
  | cons u rest ih =>
    intro st cs h1 h2
    have hstep := create_preserves_loopInv st u h1
    simp only [List.foldl_cons, toolboxCreateStep]
    refine ih _ _ hstep.1 ?_
    intro c hc
    rcases List.mem_append.mp hc with hc | hc
    · exact h2 c hc
    · rw [List.mem_singleton.mp hc]
      exact hstep.2

/-- C5: across every sequence of `ToolboxClient.create` calls in one process,
at most one background loop/thread pair is ever created (the id counter never
passes 1), and every constructed client is bound to that single pair. -/
theorem toolbox_client_single_background_loop (urls : List String) :
    (runToolboxCreates urls).1.nextLoopId ≤ 1 ∧
    ∀ c ∈ (runToolboxCreates urls).2,
      c.asyncClient.bgLoop = some { loop := some 0, thread := some 0 } := by
  have h := foldl_toolboxCreateStep_inv urls initProcessState []
    (by exact ⟨Nat.zero_le 1, fun _ => rfl, fun bl hbl => by cases hbl⟩)
    (by intro c hc; cases hc)
  exact ⟨h.1.1, h.2⟩

/-- The client that the second create call of the C5 witness constructs. -/
def clientFix (url : String) : ToolboxClient :=
  { asyncClient :=
      { url := url, session := 0,
        bgLoop := some { loop := some 0, thread := some 0 } } }

/-- Witness for C5: two consecutive creates in one process share loop pair 0
and create only one pair. -/
theorem toolbox_client_single_background_loop_witness :
    (runToolboxCreates ["url1", "url2"]).1.nextLoopId ≤ 1 ∧
    clientFix "url2" ∈ (runToolboxCreates ["url1", "url2"]).2 ∧
    (clientFix "url2").asyncClient.bgLoop =
      some { loop := some 0, thread := some 0 } :=
  ⟨(toolbox_client_single_background_loop ["url1", "url2"]).1,
   by decide,
   (toolbox_client_single_background_loop ["url1", "url2"]).2 _ (by decide)⟩

/-- The invariant of the default-session singleton state: at most one default
session was ever created, and if one exists it is session 0. -/
def sessionInv (st : ProcessState) : Prop :=
  st.nextSessionId ≤ 1 ∧ (st.defaultSession = none → st.nextSessionId = 0) ∧
    ∀ d, st.defaultSession = some d → d = 0

/-- One `AsyncToolboxClient.create` call preserves the default-session
invariant; a sessionless call receives the single shared session 0, and an
explicit-session call uses the given session and leaves the state untouched. -/
theorem asyncCreate_preserves_sessionInv (st : ProcessState) (url : String)
    (so : Option Nat) (bl : Option BackgroundLoop) (h : sessionInv st) :
    sessionInv (AsyncToolboxClient.create st url so bl).1 ∧
    (so = none → (AsyncToolboxClient.create st url so bl).2.session = 0) ∧
    (∀ s, so = some s →
      (AsyncToolboxClient.create st url so bl).2.session = s ∧
      (AsyncToolboxClient.create st url so bl).1 = st) := by
  obtain ⟨bgl, nid, ds, nsid⟩ := st
  obtain ⟨h1, h2, h3⟩ := h
  cases so with
  | some s =>
    refine ⟨⟨h1, h2, h3⟩, ?_, ?_⟩
    · intro hc
      cases hc
    · intro s' hs
      cases hs
      exact ⟨rfl, rfl⟩
  | none =>
    cases ds with
    | some d =>
      have hd : d = 0 := h3 d rfl
      subst hd
      refine ⟨⟨h1, h2, h3⟩, ?_, ?_⟩
      · intro _
        rfl
      · intro s' hs
        cases hs
    | none =>
      have hz : nsid = 0 := h2 rfl
      subst hz
      refine ⟨⟨Nat.le_refl 1, ?_, ?_⟩, ?_, ?_⟩
      · intro hc
        cases hc
      · intro d hd
        cases hd
        rfl
      · intro _
        rfl
      · intro s' hs
        cases hs

/-- The fold of `AsyncToolboxClient.create` calls preserves the
default-session invariant and the per-client session facts. -/
theorem foldl_asyncCreateStep_inv :
    ∀ (reqs : List (String × Option Nat)) (st : ProcessState)
      (cs : List (Option Nat × AsyncToolboxClient)),
      sessionInv st →
      (∀ oc ∈ cs, (oc.1 = none → oc.2.session = 0) ∧
        ∀ s, oc.1 = some s → oc.2.session = s) →
      sessionInv (reqs.foldl asyncCreateStep (st, cs)).1 ∧
      ∀ oc ∈ (reqs.foldl asyncCreateStep (st, cs)).2,
        (oc.1 = none → oc.2.session = 0) ∧
          ∀ s, oc.1 = some s → oc.2.session = s := by
  intro reqs
  induction reqs with
  | nil =>
    intro st cs h1 h2
    exact ⟨h1, h2⟩
  | cons r rest ih =>
    intro st cs h1 h2
    have hstep := asyncCreate_preserves_sessionInv st r.1 r.2 none h1
    simp only [List.foldl_cons, asyncCreateStep]
    refine ih _ _ hstep.1 ?_
    intro oc hoc
    rcases List.mem_append.mp hoc with hoc | hoc
    · exact h2 oc hoc
    · rw [List.mem_singleton.mp hoc]
      exact ⟨hstep.2.1, fun s hs => (hstep.2.2 s hs).1⟩

/-- C10: across every sequence of `AsyncToolboxClient.create` calls in one
process, at most one default session is ever created; every sessionless call
(for any URL) receives that single shared session, every explicit-session call
uses its own session, and an explicit-session call never modifies the shared
state. -/
theorem async_client_shared_default_session (reqs : List (String × Option Nat)) :
    (runAsyncCreates reqs).1.nextSessionId ≤ 1 ∧
    (∀ oc ∈ (runAsyncCreates reqs).2, oc.1 = none → oc.2.session = 0) ∧
    (∀ oc ∈ (runAsyncCreates reqs).2, ∀ s, oc.1 = some s → oc.2.session = s) ∧
    (∀ (st : ProcessState) (url : String) (s : Nat) (bl : Option BackgroundLoop),
      AsyncToolboxClient.create st url (some s) bl =
        (st, { url := url, session := s, bgLoop := bl })) := by
  have h := foldl_asyncCreateStep_inv reqs initProcessState []
    (by exact ⟨Nat.zero_le 1, fun _ => rfl, fun d hd => by cases hd⟩)
    (by intro oc hoc; cases hoc)
  exact ⟨h.1.1, fun oc hoc => (h.2 oc hoc).1, fun oc hoc => (h.2 oc hoc).2,
    fun st url s bl => rfl⟩

/-- Witness for C10: a sessionless create, an explicit-session create and a
second sessionless create — both sessionless clients share session 0, the
explicit one keeps its own session 7. -/
theorem async_client_shared_default_session_witness :
    (runAsyncCreates [("u1", none), ("u2", some 7), ("u3", none)]).1.nextSessionId ≤ 1 ∧
    ((none : Option Nat), ({ url := "u3", session := 0, bgLoop := none } :
        AsyncToolboxClient)) ∈
      (runAsyncCreates [("u1", none), ("u2", some 7), ("u3", none)]).2 ∧
    (some 7, ({ url := "u2", session := 7, bgLoop := none } :
        AsyncToolboxClient)) ∈
      (runAsyncCreates [("u1", none), ("u2", some 7), ("u3", none)]).2 ∧
    ({ url := "u3", session := 0, bgLoop := none } :
        AsyncToolboxClient).session = 0 ∧
    ({ url := "u2", session := 7, bgLoop := none } :
        AsyncToolboxClient).session = 7 :=
  have h := async_client_shared_default_session
    [("u1", none), ("u2", some 7), ("u3", none)]
  ⟨h.1, by decide, by decide,
   h.2.1 ((none : Option Nat), { url := "u3", session := 0, bgLoop := none })
     (by decide) rfl,
   h.2.2.1 (some 7, { url := "u2", session := 7, bgLoop := none })
     (by decide) 7 rfl⟩

/-- Prepending a schema parameter never clears the validation-error list. -/
theorem resolveParams_cons_errors_nonempty (t : AsyncToolboxTool)
    (args : List (String × JValue)) (tick : Nat) (q : ParameterSpec)
    (rest : List ParameterSpec)
    (h : (resolveParams t args tick rest).2.2 ≠ []) :
    (resolveParams t args tick (q :: rest)).2.2 ≠ [] := by
  simp only [resolveParams]
  repeat' split
  all_goals simp_all

/-- A schema parameter resolved by neither an auth getter, a bound value, nor
a caller-supplied argument leaves the validation-error list nonempty. -/
theorem resolveParams_error_of_missing (t : AsyncToolboxTool)
    (args : List (String × JValue)) (tick : Nat) (p : ParameterSpec) :
    ∀ params, p ∈ params →
      registeredSource t p = none →
      t.boundParams.lookup p.name = none →
      args.lookup p.name = none →
      (resolveParams t args tick params).2.2 ≠ [] := by
  intro params
  induction params with
  | nil =>
    intro h
    cases h
  | cons q rest ih =>
    intro hp hreg hbound hargs
    rcases List.mem_cons.mp hp with hq | hq
    · subst hq
      simp only [resolveParams]
      rw [hreg, hbound, hargs]
      simp
    · exact resolveParams_cons_errors_nonempty t args tick q rest
        (ih hq hreg hbound hargs)

/-- An auth-gated schema parameter with a registered getter puts the freshly
fetched token into the header list under `<source>_token`. -/
theorem resolveParams_header_mem (t : AsyncToolboxTool)
    (args : List (String × JValue)) (tick : Nat) (p : ParameterSpec)
    (src : String) (g : AuthGetter)
    (hsrc : registeredSource t p = some src)
    (hg : t.authTokens.lookup src = some g) :
    ∀ params, p ∈ params →
      (src ++ "_token", g tick) ∈ (resolveParams t args tick params).1 := by
  intro params
  induction params with
  | nil =>
    intro h
    cases h
  | cons q rest ih =>
    intro hp
    rcases List.mem_cons.mp hp with hq | hq
    · subst hq
      simp only [resolveParams]
      rw [hsrc]
      dsimp only
      rw [hg]
      exact List.mem_cons_self _ _
    · have hmem := ih hq
      simp only [resolveParams]
      repeat' split
      all_goals simp_all

/-- Every body key produced by resolution belongs to a schema parameter that
was not resolved through an auth getter. -/
theorem resolveParams_body_not_mem (t : AsyncToolboxTool)
    (args : List (String × JValue)) (tick : Nat) (pname : String) :
    ∀ params, (∀ q ∈ params, q.name = pname → (registeredSource t q).isSome) →
      pname ∉ (resolveParams t args tick params).2.1.map Prod.fst := by
  intro params
  induction params with
  | nil =>
    intro _
    simp [resolveParams]
  | cons q rest ih =>
    intro hq
    have hrest := ih (fun x hx hn => hq x (List.mem_cons_of_mem _ hx) hn)
    simp only [resolveParams]
    cases hreg : registeredSource t q with
    | some src =>
      dsimp only
      cases hlk : t.authTokens.lookup src with
      | some g => simpa using hrest
      | none => simpa using hrest
    | none =>
      dsimp only
      have hneq : q.name ≠ pname := by
        intro he
        have hs := hq q (List.mem_cons_self _ _) he
        rw [hreg] at hs
        exact absurd hs (by simp)
      cases hbv : t.boundParams.lookup q.name with
      | some bv =>
        dsimp only
        simp only [List.map_cons, List.mem_cons]
        intro hc
        rcases hc with hc | hc
        · exact hneq hc.symm
        · exact hrest hc
      | none =>
        dsimp only
        cases hav : args.lookup q.name with
        | some v =>
          dsimp only
          by_cases htm : typeMatches q.type v = true
          · rw [if_pos htm]
            simp only [List.map_cons, List.mem_cons]
            intro hc
            rcases hc with hc | hc
            · exact hneq hc.symm
            · exact hrest hc
          · rw [if_neg htm]
            simpa using hrest
        | none =>
          dsimp only
          simpa using hrest

/-- The components of a successful `ainvoke` in terms of the resolution of the
schema parameters. -/
theorem ainvoke_ok_parts {t : AsyncToolboxTool} {args : List (String × JValue)}
    {tick : Nat} {ws : List String} {r : HttpRequest}
    (h : t.ainvoke args tick = .ok (ws, r)) :
    r.headers = (resolveParams t args tick t.schema.parameters).1 ∧
    r.body = (resolveParams t args tick t.schema.parameters).2.1 ∧
    ws = (if isInsecure t.url &&
            !(resolveParams t args tick t.schema.parameters).1.isEmpty
          then [insecureWarningMsg] else []) := by
  unfold AsyncToolboxTool.ainvoke at h
  dsimp only at h
  split at h
  · simp only [Except.ok.injEq, Prod.mk.injEq] at h
    obtain ⟨hws, hr⟩ := h
    rw [← hr]
    exact ⟨rfl, rfl, hws.symm⟩
  · exact absurd h (by simp)

/-- An auth-gated parameter named in `unauthedParams` has no registered getter
for any of its auth sources. -/
theorem unauthed_registeredSource_none (t : AsyncToolboxTool) (n : String)
    (hn : n ∈ t.unauthedParams) :
    ∃ p ∈ t.schema.parameters, p.name = n ∧ registeredSource t p = none := by
  unfold AsyncToolboxTool.unauthedParams at hn
  obtain ⟨p, hpf, hpn⟩ := List.mem_map.mp hn
  obtain ⟨hpmem, hpred⟩ := List.mem_filter.mp hpf
  refine ⟨p, hpmem, hpn, ?_⟩
  rw [Bool.and_eq_true] at hpred
  have hnone := hpred.2
  unfold registeredSource
  rw [List.find?_eq_none]
  intro s hs
  intro hcon
  rw [Bool.not_eq_true'] at hnone
  have := List.any_eq_false.mp hnone s hs
  exact this hcon

/-- C4: constructing a tool whose schema has an auth-gated parameter without a
registered getter fails under `strict = true` with a permission error naming
the unauthenticated parameters; without `strict` the construction succeeds and
emits a warning naming them, and the failure is deferred to invocation time
(any invoke that still leaves them unresolved fails). -/
theorem strict_auth_validation (name : String) (schema : ToolSchema)
    (url : String) (toks : List (String × AuthGetter))
    (bp : List (String × BoundValue))
    (hu : (rawTool name schema url toks bp).unauthedParams ≠ []) :
    AsyncToolboxTool.make name schema url toks bp true =
      .error (.permissionError (authRequiredMsg name
        (rawTool name schema url toks bp).unauthedParams)) ∧
    AsyncToolboxTool.make name schema url toks bp false =
      .ok ([authRequiredMsg name (rawTool name schema url toks bp).unauthedParams],
        rawTool name schema url toks bp) ∧
    (∀ (args : List (String × JValue)) (tick : Nat),
      (∀ n ∈ (rawTool name schema url toks bp).unauthedParams,
        bp.lookup n = none ∧ args.lookup n = none) →
      ∃ e, (rawTool name schema url toks bp).ainvoke args tick = .error e) := by
  refine ⟨?_, ?_, ?_⟩
  · unfold AsyncToolboxTool.make validateAuth
    simp only [bind, Except.bind]
    cases hul : (rawTool name schema url toks bp).unauthedParams with
    | nil => exact absurd hul hu
    | cons x xs => rfl
  · unfold AsyncToolboxTool.make validateAuth
    simp only [bind, Except.bind]
    cases hul : (rawTool name schema url toks bp).unauthedParams with
    | nil => exact absurd hul hu
    | cons x xs => rfl
  · intro args tick hargs
    cases hul : (rawTool name schema url toks bp).unauthedParams with
    | nil => exact absurd hul hu
    | cons x xs =>
      have hx : x ∈ (rawTool name schema url toks bp).unauthedParams := by
        rw [hul]
        exact List.mem_cons_self _ _
      obtain ⟨p, hpmem, hpn, hpreg⟩ :=
        unauthed_registeredSource_none (rawTool name schema url toks bp) x hx
      obtain ⟨hbp, hav⟩ := hargs x hx
      have herr := resolveParams_error_of_missing
        (rawTool name schema url toks bp) args tick p
        (rawTool name schema url toks bp).schema.parameters hpmem hpreg
        (by rw [hpn]; exact hbp) (by rw [hpn]; exact hav)
      unfold AsyncToolboxTool.ainvoke
      dsimp only
      cases hes : (resolveParams (rawTool name schema url toks bp) args tick
          (rawTool name schema url toks bp).schema.parameters).2.2 with
      | nil => exact absurd hes herr
      | cons a as => exact ⟨_, rfl⟩

/-- Witness for C4 at the test fixture: `param1` gated by `test-auth-source`
with no registered getter. -/
theorem strict_auth_validation_witness :
    AsyncToolboxTool.make "test_tool" authToolSchemaFix "https://test-url"
        [] [] true =
      .error (.permissionError (authRequiredMsg "test_tool"
        (rawTool "test_tool" authToolSchemaFix "https://test-url" [] []).unauthedParams)) ∧
    AsyncToolboxTool.make "test_tool" authToolSchemaFix "https://test-url"
        [] [] false =
      .ok ([authRequiredMsg "test_tool"
            (rawTool "test_tool" authToolSchemaFix "https://test-url" [] []).unauthedParams],
           rawTool "test_tool" authToolSchemaFix "https://test-url" [] []) ∧
    (∃ e, (rawTool "test_tool" authToolSchemaFix "https://test-url"
        [] []).ainvoke [] 0 = .error e) :=
  have h := strict_auth_validation "test_tool" authToolSchemaFix
    "https://test-url" [] [] (by decide)
  ⟨h.1, h.2.1, h.2.2 [] 0 (by
    intro n hn
    exact ⟨rfl, rfl⟩)⟩

/-- C8: when the base URL uses the insecure scheme and an auth token is
attached, a successful invoke emits exactly the insecure-transport warning and
still sends the request with the `<source>_token` header. -/
theorem invoke_insecure_warns_and_sends (t : AsyncToolboxTool)
    (p : ParameterSpec) (src : String) (g : AuthGetter)
    (args : List (String × JValue)) (tick : Nat) (ws : List String)
    (r : HttpRequest)
    (hins : isInsecure t.url = true)
    (hp : p ∈ t.schema.parameters)
    (hsrc : registeredSource t p = some src)
    (hg : t.authTokens.lookup src = some g)
    (hok : t.ainvoke args tick = .ok (ws, r)) :
    ws = [insecureWarningMsg] ∧ (src ++ "_token", g tick) ∈ r.headers := by
  obtain ⟨hh, _, hws⟩ := ainvoke_ok_parts hok
  have hmem := resolveParams_header_mem t args tick p src g hsrc hg
    t.schema.parameters hp
  constructor
  · rw [hws, hins]
    have hne : (resolveParams t args tick t.schema.parameters).1 ≠ [] :=
      List.ne_nil_of_mem hmem
    cases hcase : (resolveParams t args tick t.schema.parameters).1 with
    | nil => exact absurd hcase hne
    | cons a as => rfl
  · rw [hh]
    exact hmem

/-- The constant token getter of the insecure-transport test. -/
def constTokGetter : AuthGetter := fun _ => "test-token"

/-- The auth-gated tool of the insecure-transport test: getter registered,
base URL over plain HTTP. -/
def insecureAuthToolFix : AsyncToolboxTool :=
  { name := "test_tool", schema := authToolSchemaFix, url := "http://test-url",
    boundParams := [], authTokens := [("test-auth-source", constTokGetter)] }

/-- Witness for C8 at the test fixture: invoke over HTTP warns and still sends
`test-auth-source_token: test-token`. -/
theorem invoke_insecure_warns_and_sends_witness :
    insecureAuthToolFix.ainvoke [("param2", .vint 123)] 0 =
      .ok ([insecureWarningMsg],
        { url := "http://test-url" ++ "/api/tool/" ++ "test_tool" ++ "/invoke",
          body := [("param2", .vint 123)],
          headers := [("test-auth-source_token", "test-token")] }) ∧
    [insecureWarningMsg] = [insecureWarningMsg] ∧
    ("test-auth-source" ++ "_token", constTokGetter 0) ∈
      [(("test-auth-source_token" : String), ("test-token" : String))] :=
  ⟨rfl,
   invoke_insecure_warns_and_sends insecureAuthToolFix
     { name := "param1", type := .tstring, description := "Param 1",
       authSources := ["test-auth-source"] }
     "test-auth-source" constTokGetter [("param2", .vint 123)] 0
     [insecureWarningMsg]
     { url := "http://test-url" ++ "/api/tool/" ++ "test_tool" ++ "/invoke",
       body := [("param2", .vint 123)],
       headers := [("test-auth-source_token", "test-token")] }
     (by decide) (by decide) rfl rfl rfl⟩

/-- C1: on every successful invoke, an auth-gated parameter with a registered
getter contributes the header `<source>_token` holding the getter's value
fetched at that call's tick, the parameter's name is absent from the request
body, and two invokes whose getter values differ carry different header
values. -/
theorem invoke_fresh_auth_header (t : AsyncToolboxTool) (p : ParameterSpec)
    (src : String) (g : AuthGetter) (args : List (String × JValue))
    (t1 t2 : Nat) (ws1 ws2 : List String) (r1 r2 : HttpRequest)
    (hnd : (t.schema.parameters.map ParameterSpec.name).Nodup)
    (hp : p ∈ t.schema.parameters)
    (hsrc : registeredSource t p = some src)
    (hg : t.authTokens.lookup src = some g)
    (h1 : t.ainvoke args t1 = .ok (ws1, r1))
    (h2 : t.ainvoke args t2 = .ok (ws2, r2)) :
    (src ++ "_token", g t1) ∈ r1.headers ∧
    (src ++ "_token", g t2) ∈ r2.headers ∧
    p.name ∉ r1.body.map Prod.fst ∧
    (g t1 ≠ g t2 → (src ++ "_token", g t1) ≠ (src ++ "_token", g t2)) := by
  obtain ⟨hh1, hb1, _⟩ := ainvoke_ok_parts h1
  obtain ⟨hh2, _, _⟩ := ainvoke_ok_parts h2
  refine ⟨?_, ?_, ?_, ?_⟩
  · rw [hh1]
    exact resolveParams_header_mem t args t1 p src g hsrc hg
      t.schema.parameters hp
  · rw [hh2]
    exact resolveParams_header_mem t args t2 p src g hsrc hg
      t.schema.parameters hp
  · rw [hb1]
    refine resolveParams_body_not_mem t args t1 p.name t.schema.parameters ?_
    intro q hq hqn
    have hqp : q = p := List.inj_on_of_nodup_map hnd hq hp hqn
    rw [hqp, hsrc]
    rfl
  · intro hne hpair
    exact hne (congrArg Prod.snd hpair)

/-- Witness for C1 at the test fixture: the rotating getter yields header
value `tok0` on the first invoke and `tok1` on the second. -/
theorem invoke_fresh_auth_header_witness :
    authToolFix.ainvoke [("param2", .vint 123)] 0 =
      .ok ([], { url := "https://test-url" ++ "/api/tool/" ++ "test_tool" ++ "/invoke",
                 body := [("param2", .vint 123)],
                 headers := [("test-auth-source_token", "tok0")] }) ∧
    authToolFix.ainvoke [("param2", .vint 123)] 1 =
      .ok ([], { url := "https://test-url" ++ "/api/tool/" ++ "test_tool" ++ "/invoke",
                 body := [("param2", .vint 123)],
                 headers := [("test-auth-source_token", "tok1")] }) ∧
    ("test-auth-source" ++ "_token", rotatingGetter 0) ∈
      [(("test-auth-source_token" : String), ("tok0" : String))] ∧
    ("param1" : String) ∉ [("param2", JValue.vint 123)].map Prod.fst ∧
    (("test-auth-source" ++ "_token", rotatingGetter 0) ≠
      ("test-auth-source" ++ "_token", rotatingGetter 1)) :=
  have h := invoke_fresh_auth_header authToolFix
    { name := "param1", type := .tstring, description := "Param 1",
      authSources := ["test-auth-source"] }
    "test-auth-source" rotatingGetter [("param2", .vint 123)] 0 1
    [] []
    { url := "https://test-url" ++ "/api/tool/" ++ "test_tool" ++ "/invoke",
      body := [("param2", .vint 123)],
      headers := [("test-auth-source_token", "tok0")] }
    { url := "https://test-url" ++ "/api/tool/" ++ "test_tool" ++ "/invoke",
      body := [("param2", .vint 123)],
      headers := [("test-auth-source_token", "tok1")] }
    (by decide) (by decide) rfl rfl rfl rfl
  ⟨rfl, rfl, h.1, h.2.2.1, h.2.2.2 (by decide)⟩

end GenaiToolbox
